import Mathlib

/-!
Verification development for the PE Org-AI-R configuration-validation code
(`source.py`).  The definitions below embed the final `Settings` class of the
source (the one carrying `validate_dimension_weights`, `validate_openai_key`
and `validate_production_settings`) together with its cached loader
`get_settings_with_prod_validation` and the scenario loader
`load_scenario_settings`.

Modelling conventions:
* an environment snapshot is a record of `Option String` fields (the raw
  environment-variable values; `none` means the variable is unset);
* Python floats are modelled as exact rationals `ℚ` (every threshold in the
  source - range bounds and the 0.001 weight tolerance - is far wider than
  double-precision rounding error, so exact arithmetic decides the same
  comparisons);
* pydantic collects every field-level error across all fields before
  reporting, and only runs the `mode="after"` model validators when all
  fields coerced; the after-validators run in definition order and a raised
  `ValueError` aborts validation with that single error;
* errors are structured values (`VError`) carrying the data the source
  interpolates into its messages (field name, violated bound, computed sum,
  required prefix) instead of formatted strings.
-/

set_option maxRecDepth 100000

namespace PEOrgair

/-- Wrapper mirroring pydantic's `SecretStr`; `secretValue` plays the role of
`get_secret_value()`. -/
structure SecretStr where
  secretValue : String
deriving DecidableEq

/-- Python truthiness of an `Optional[SecretStr]`: `None` is falsy, and
`SecretStr(v)` is truthy iff `v` is non-empty (pydantic's `Secret.__bool__`). -/
def secretBool : Option SecretStr → Bool
  | none => false
  | some v => !(v.secretValue == (""))

/-- Structured validation errors.  Each constructor corresponds to one failure
mode of the source and carries the data its message interpolates. -/
inductive VError where
  | literalExpected (field : String) (allowed : List String)
  | boolParse (field : String)
  | intParse (field : String)
  | floatParse (field : String)
  | notGE (field : String) (bound : ℚ)
  | notLE (field : String) (bound : ℚ)
  | openaiKeyFormat (field : String) (requiredStart : String)
  | weightSumNotOne (total : ℚ)
  | debugTrueInProduction
  | secretKeyTooShortInProduction
  | noLLMKeyInProduction
deriving DecidableEq

/-! ### String-to-value coercion (pydantic's lax parsing of env strings) -/

/-- Numeric value of a digit string (only meaningful when all are digits). -/
def parseDigitsVal (cs : List Char) : Nat :=
  cs.foldl (fun n c => 10 * n + (c.toNat - 48)) 0

def allDigits (cs : List Char) : Bool :=
  cs.all Char.isDigit

/-- Unsigned decimal numeral, with an optional fractional part. -/
def parseUnsignedRat (cs : List Char) : Option ℚ :=
  let ip := cs.takeWhile (fun c => !(c == '.'))
  match cs.drop ip.length with
  | [] =>
    if ip.isEmpty || !(allDigits ip) then none
    else some ((parseDigitsVal ip : ℚ))
  | _ :: fp =>
    if (ip.isEmpty && fp.isEmpty) || !(allDigits ip) || !(allDigits fp) then none
    else some ((parseDigitsVal ip : ℚ) + (parseDigitsVal fp : ℚ) / ((10 : ℚ) ^ fp.length))

/-- Python `float(raw)` restricted to plain decimal numerals. -/
def parseRatStr (s : String) : Option ℚ :=
  match s.data with
  | [] => none
  | c :: cs =>
    if c == '-' then (parseUnsignedRat cs).map (fun q => -q)
    else if c == '+' then parseUnsignedRat cs
    else parseUnsignedRat (c :: cs)

/-- Python `int(raw)`. -/
def parseIntStr (s : String) : Option Int :=
  match s.data with
  | [] => none
  | c :: cs =>
    if c == '-' then
      if cs.isEmpty || !(allDigits cs) then none else some (-(parseDigitsVal cs : Int))
    else if c == '+' then
      if cs.isEmpty || !(allDigits cs) then none else some ((parseDigitsVal cs : Int))
    else
      if !(allDigits (c :: cs)) then none else some ((parseDigitsVal (c :: cs) : Int))

def lowerData (s : String) : List Char :=
  s.data.map Char.toLower

def trueWords : List (List Char) :=
  [ ("true").data, ("t").data, ("yes").data, ("y").data, ("on").data, ("1").data ]

def falseWords : List (List Char) :=
  [ ("false").data, ("f").data, ("no").data, ("n").data, ("off").data, ("0").data ]

/-- pydantic's lax string-to-bool coercion (case-insensitive word list). -/
def parseBoolStr (s : String) : Option Bool :=
  if trueWords.contains (lowerData s) then some true
  else if falseWords.contains (lowerData s) then some false
  else none

/-! ### Per-field coercion.  Each returns the coerced value (the declared
default when the variable is unset, or a placeholder when coercion failed -
the placeholder is never observed because a non-empty error list aborts the
load) together with the list of field-level errors it contributes. -/

def coerceStr (dflt : String) (raw : Option String) : String × List VError :=
  (raw.getD dflt, [])

def coerceOptStr (raw : Option String) : Option String × List VError :=
  (raw, [])

def coerceLiteral (field : String) (allowed : List String) (dflt : String)
    (raw : Option String) : String × List VError :=
  match raw with
  | none => (dflt, [])
  | some v => if allowed.contains v then (v, []) else (dflt, [VError.literalExpected field allowed])

def coerceBool (field : String) (dflt : Bool) (raw : Option String) : Bool × List VError :=
  match raw with
  | none => (dflt, [])
  | some v =>
    match parseBoolStr v with
    | some b => (b, [])
    | none => (dflt, [VError.boolParse field])

def coerceInt (field : String) (dflt : Int) (raw : Option String) : Int × List VError :=
  match raw with
  | none => (dflt, [])
  | some v =>
    match parseIntStr v with
    | some n => (n, [])
    | none => (dflt, [VError.intParse field])

/-- Coercion for `Field(..., ge=lo, le=hi)` on an `int` field. -/
def coerceIntRange (field : String) (lo hi : Int) (dflt : Int)
    (raw : Option String) : Int × List VError :=
  match raw with
  | none => (dflt, [])
  | some v =>
    match parseIntStr v with
    | none => (dflt, [VError.intParse field])
    | some n =>
      if n < lo then (n, [VError.notGE field (lo : ℚ)])
      else if hi < n then (n, [VError.notLE field (hi : ℚ)])
      else (n, [])

/-- Coercion for `Field(..., ge=lo)` on a `float` field. -/
def coerceRatGE (field : String) (lo : ℚ) (dflt : ℚ)
    (raw : Option String) : ℚ × List VError :=
  match raw with
  | none => (dflt, [])
  | some v =>
    match parseRatStr v with
    | none => (dflt, [VError.floatParse field])
    | some q =>
      if q < lo then (q, [VError.notGE field lo]) else (q, [])

/-- Coercion for `Field(..., ge=lo, le=hi)` on a `float` field. -/
def coerceRatRange (field : String) (lo hi : ℚ) (dflt : ℚ)
    (raw : Option String) : ℚ × List VError :=
  match raw with
  | none => (dflt, [])
  | some v =>
    match parseRatStr v with
    | none => (dflt, [VError.floatParse field])
    | some q =>
      if q < lo then (q, [VError.notGE field lo])
      else if hi < q then (q, [VError.notLE field hi])
      else (q, [])

def coerceSecret (dflt : String) (raw : Option String) : SecretStr × List VError :=
  (⟨raw.getD dflt⟩, [])

def strStartsWith (s p : String) : Bool :=
  p.data.isPrefixOf s.data

/-- The `OPENAI_API_KEY` field: optional secret, plus the source's
`validate_openai_key` field validator (a present value must start with
`"sk-"`; an absent value is not checked). -/
def validate_openai_key (field : String) (raw : Option String) :
    Option SecretStr × List VError :=
  match raw with
  | none => (none, [])
  | some v =>
    if strStartsWith v ("sk-") then (some ⟨v⟩, [])
    else (some ⟨v⟩, [VError.openaiKeyFormat field ("sk-")])

/-- Coercion for `ANTHROPIC_API_KEY` and other unvalidated optional secrets. -/
def coerceOptSecret (raw : Option String) : Option SecretStr × List VError :=
  (raw.map SecretStr.mk, [])

/-! ### The environment snapshot and the Settings model (final class of the
source, lines 416-505). -/

/-- Raw environment snapshot: one optional raw string per settings field. -/
structure Snapshot where
  APP_NAME : Option String := none
  APP_VERSION : Option String := none
  APP_ENV : Option String := none
  DEBUG : Option String := none
  LOG_LEVEL : Option String := none
  LOG_FORMAT : Option String := none
  SECRET_KEY : Option String := none
  RATE_LIMIT_PER_MINUTE : Option String := none
  DAILY_COST_BUDGET_USD : Option String := none
  COST_ALERT_THRESHOLD_PCT : Option String := none
  HITL_SCORE_CHANGE_THRESHOLD : Option String := none
  HITL_EBITDA_PROJECTION_THRESHOLD : Option String := none
  OPENAI_API_KEY : Option String := none
  ANTHROPIC_API_KEY : Option String := none
  SNOWFLAKE_ACCOUNT : Option String := none
  SNOWFLAKE_USER : Option String := none
  SNOWFLAKE_PASSWORD : Option String := none
  SNOWFLAKE_DATABASE : Option String := none
  SNOWFLAKE_SCHEMA : Option String := none
  SNOWFLAKE_WAREHOUSE : Option String := none
  SNOWFLAKE_ROLE : Option String := none
  AWS_ACCESS_KEY_ID : Option String := none
  AWS_SECRET_ACCESS_KEY : Option String := none
  AWS_REGION : Option String := none
  S3_BUCKET : Option String := none
  REDIS_URL : Option String := none
  CACHE_TTL_SECTORS : Option String := none
  CACHE_TTL_SCORES : Option String := none
  W_DATA_INFRA : Option String := none
  W_AI_GOVERNANCE : Option String := none
  W_TECH_STACK : Option String := none
  W_TALENT : Option String := none
  W_LEADERSHIP : Option String := none
  W_USE_CASES : Option String := none
  W_CULTURE : Option String := none
  CELERY_BROKER_URL : Option String := none
  CELERY_RESULT_BACKEND : Option String := none
  OTEL_EXPORTER_OTLP_ENDPOINT : Option String := none
  OTEL_SERVICE_NAME : Option String := none
deriving DecidableEq

def emptySnapshot : Snapshot := {}

/-- The typed settings object (fields and declared types of the final
`Settings` class). -/
structure Settings where
  APP_NAME : String
  APP_VERSION : String
  APP_ENV : String
  DEBUG : Bool
  LOG_LEVEL : String
  LOG_FORMAT : String
  SECRET_KEY : SecretStr
  RATE_LIMIT_PER_MINUTE : Int
  DAILY_COST_BUDGET_USD : ℚ
  COST_ALERT_THRESHOLD_PCT : ℚ
  HITL_SCORE_CHANGE_THRESHOLD : ℚ
  HITL_EBITDA_PROJECTION_THRESHOLD : ℚ
  OPENAI_API_KEY : Option SecretStr
  ANTHROPIC_API_KEY : Option SecretStr
  SNOWFLAKE_ACCOUNT : String
  SNOWFLAKE_USER : String
  SNOWFLAKE_PASSWORD : SecretStr
  SNOWFLAKE_DATABASE : String
  SNOWFLAKE_SCHEMA : String
  SNOWFLAKE_WAREHOUSE : String
  SNOWFLAKE_ROLE : String
  AWS_ACCESS_KEY_ID : SecretStr
  AWS_SECRET_ACCESS_KEY : SecretStr
  AWS_REGION : String
  S3_BUCKET : String
  REDIS_URL : String
  CACHE_TTL_SECTORS : Int
  CACHE_TTL_SCORES : Int
  W_DATA_INFRA : ℚ
  W_AI_GOVERNANCE : ℚ
  W_TECH_STACK : ℚ
  W_TALENT : ℚ
  W_LEADERSHIP : ℚ
  W_USE_CASES : ℚ
  W_CULTURE : ℚ
  CELERY_BROKER_URL : String
  CELERY_RESULT_BACKEND : String
  OTEL_EXPORTER_OTLP_ENDPOINT : Option String
  OTEL_SERVICE_NAME : String
deriving DecidableEq

def appEnvLiterals : List String :=
  [ ("development"), ("staging"), ("production") ]

def logLevelLiterals : List String :=
  [ ("DEBUG"), ("INFO"), ("WARNING"), ("ERROR") ]

def logFormatLiterals : List String :=
  [ ("json"), ("console") ]

/-- All field-level errors of one load attempt, in field declaration order.
pydantic collects them across every field (sibling checks are not
short-circuited). -/
def fieldErrors (s : Snapshot) : List VError :=
  (coerceLiteral ("APP_ENV") appEnvLiterals ("development") s.APP_ENV).2 ++
  (coerceBool ("DEBUG") false s.DEBUG).2 ++
  (coerceLiteral ("LOG_LEVEL") logLevelLiterals ("INFO") s.LOG_LEVEL).2 ++
  (coerceLiteral ("LOG_FORMAT") logFormatLiterals ("json") s.LOG_FORMAT).2 ++
  (coerceIntRange ("RATE_LIMIT_PER_MINUTE") 1 1000 60 s.RATE_LIMIT_PER_MINUTE).2 ++
  (coerceRatGE ("DAILY_COST_BUDGET_USD") 0 500 s.DAILY_COST_BUDGET_USD).2 ++
  (coerceRatRange ("COST_ALERT_THRESHOLD_PCT") 0 1 ((8 : ℚ)/10) s.COST_ALERT_THRESHOLD_PCT).2 ++
  (coerceRatRange ("HITL_SCORE_CHANGE_THRESHOLD") 5 30 15 s.HITL_SCORE_CHANGE_THRESHOLD).2 ++
  (coerceRatRange ("HITL_EBITDA_PROJECTION_THRESHOLD") 5 25 10 s.HITL_EBITDA_PROJECTION_THRESHOLD).2 ++
  (validate_openai_key ("OPENAI_API_KEY") s.OPENAI_API_KEY).2 ++
  (coerceOptSecret s.ANTHROPIC_API_KEY).2 ++
  (coerceInt ("CACHE_TTL_SECTORS") 86400 s.CACHE_TTL_SECTORS).2 ++
  (coerceInt ("CACHE_TTL_SCORES") 3600 s.CACHE_TTL_SCORES).2 ++
  (coerceRatRange ("W_DATA_INFRA") 0 1 ((18 : ℚ)/100) s.W_DATA_INFRA).2 ++
  (coerceRatRange ("W_AI_GOVERNANCE") 0 1 ((15 : ℚ)/100) s.W_AI_GOVERNANCE).2 ++
  (coerceRatRange ("W_TECH_STACK") 0 1 ((15 : ℚ)/100) s.W_TECH_STACK).2 ++
  (coerceRatRange ("W_TALENT") 0 1 ((17 : ℚ)/100) s.W_TALENT).2 ++
  (coerceRatRange ("W_LEADERSHIP") 0 1 ((13 : ℚ)/100) s.W_LEADERSHIP).2 ++
  (coerceRatRange ("W_USE_CASES") 0 1 ((12 : ℚ)/100) s.W_USE_CASES).2 ++
  (coerceRatRange ("W_CULTURE") 0 1 ((10 : ℚ)/100) s.W_CULTURE).2

/-- The typed settings built from the snapshot (observed only when
`fieldErrors s = []`). -/
def coercedSettings (s : Snapshot) : Settings where
  APP_NAME := (coerceStr ("PE Org-AI-R Platform") s.APP_NAME).1
  APP_VERSION := (coerceStr ("4.0.0") s.APP_VERSION).1
  APP_ENV := (coerceLiteral ("APP_ENV") appEnvLiterals ("development") s.APP_ENV).1
  DEBUG := (coerceBool ("DEBUG") false s.DEBUG).1
  LOG_LEVEL := (coerceLiteral ("LOG_LEVEL") logLevelLiterals ("INFO") s.LOG_LEVEL).1
  LOG_FORMAT := (coerceLiteral ("LOG_FORMAT") logFormatLiterals ("json") s.LOG_FORMAT).1
  SECRET_KEY := (coerceSecret ("default_secret_for_dev_env_testing_0123456789") s.SECRET_KEY).1
  RATE_LIMIT_PER_MINUTE := (coerceIntRange ("RATE_LIMIT_PER_MINUTE") 1 1000 60 s.RATE_LIMIT_PER_MINUTE).1
  DAILY_COST_BUDGET_USD := (coerceRatGE ("DAILY_COST_BUDGET_USD") 0 500 s.DAILY_COST_BUDGET_USD).1
  COST_ALERT_THRESHOLD_PCT := (coerceRatRange ("COST_ALERT_THRESHOLD_PCT") 0 1 ((8 : ℚ)/10) s.COST_ALERT_THRESHOLD_PCT).1
  HITL_SCORE_CHANGE_THRESHOLD := (coerceRatRange ("HITL_SCORE_CHANGE_THRESHOLD") 5 30 15 s.HITL_SCORE_CHANGE_THRESHOLD).1
  HITL_EBITDA_PROJECTION_THRESHOLD := (coerceRatRange ("HITL_EBITDA_PROJECTION_THRESHOLD") 5 25 10 s.HITL_EBITDA_PROJECTION_THRESHOLD).1
  OPENAI_API_KEY := (validate_openai_key ("OPENAI_API_KEY") s.OPENAI_API_KEY).1
  ANTHROPIC_API_KEY := (coerceOptSecret s.ANTHROPIC_API_KEY).1
  SNOWFLAKE_ACCOUNT := (coerceStr ("test_account") s.SNOWFLAKE_ACCOUNT).1
  SNOWFLAKE_USER := (coerceStr ("test_user") s.SNOWFLAKE_USER).1
  SNOWFLAKE_PASSWORD := (coerceSecret ("test_snowflake_password") s.SNOWFLAKE_PASSWORD).1
  SNOWFLAKE_DATABASE := (coerceStr ("PE_ORGAIR") s.SNOWFLAKE_DATABASE).1
  SNOWFLAKE_SCHEMA := (coerceStr ("PUBLIC") s.SNOWFLAKE_SCHEMA).1
  SNOWFLAKE_WAREHOUSE := (coerceStr ("test_warehouse") s.SNOWFLAKE_WAREHOUSE).1
  SNOWFLAKE_ROLE := (coerceStr ("PE_ORGAIR_ROLE") s.SNOWFLAKE_ROLE).1
  AWS_ACCESS_KEY_ID := (coerceSecret ("test_aws_key_id") s.AWS_ACCESS_KEY_ID).1
  AWS_SECRET_ACCESS_KEY := (coerceSecret ("test_aws_secret_key") s.AWS_SECRET_ACCESS_KEY).1
  AWS_REGION := (coerceStr ("us-east-1") s.AWS_REGION).1
  S3_BUCKET := (coerceStr ("test_s3_bucket") s.S3_BUCKET).1
  REDIS_URL := (coerceStr ("redis://localhost:6379/0") s.REDIS_URL).1
  CACHE_TTL_SECTORS := (coerceInt ("CACHE_TTL_SECTORS") 86400 s.CACHE_TTL_SECTORS).1
  CACHE_TTL_SCORES := (coerceInt ("CACHE_TTL_SCORES") 3600 s.CACHE_TTL_SCORES).1
  W_DATA_INFRA := (coerceRatRange ("W_DATA_INFRA") 0 1 ((18 : ℚ)/100) s.W_DATA_INFRA).1
  W_AI_GOVERNANCE := (coerceRatRange ("W_AI_GOVERNANCE") 0 1 ((15 : ℚ)/100) s.W_AI_GOVERNANCE).1
  W_TECH_STACK := (coerceRatRange ("W_TECH_STACK") 0 1 ((15 : ℚ)/100) s.W_TECH_STACK).1
  W_TALENT := (coerceRatRange ("W_TALENT") 0 1 ((17 : ℚ)/100) s.W_TALENT).1
  W_LEADERSHIP := (coerceRatRange ("W_LEADERSHIP") 0 1 ((13 : ℚ)/100) s.W_LEADERSHIP).1
  W_USE_CASES := (coerceRatRange ("W_USE_CASES") 0 1 ((12 : ℚ)/100) s.W_USE_CASES).1
  W_CULTURE := (coerceRatRange ("W_CULTURE") 0 1 ((10 : ℚ)/100) s.W_CULTURE).1
  CELERY_BROKER_URL := (coerceStr ("redis://localhost:6379/1") s.CELERY_BROKER_URL).1
  CELERY_RESULT_BACKEND := (coerceStr ("redis://localhost:6379/2") s.CELERY_RESULT_BACKEND).1
  OTEL_EXPORTER_OTLP_ENDPOINT := (coerceOptStr s.OTEL_EXPORTER_OTLP_ENDPOINT).1
  OTEL_SERVICE_NAME := (coerceStr ("pe-orgair") s.OTEL_SERVICE_NAME).1

/-! ### Model validators (run after all fields coerced, in definition order) -/

/-- Sum of the seven dimension weights, in list order of the source. -/
def weightsTotal (st : Settings) : ℚ :=
  st.W_DATA_INFRA + st.W_AI_GOVERNANCE + st.W_TECH_STACK +
    st.W_TALENT + st.W_LEADERSHIP + st.W_USE_CASES + st.W_CULTURE

/-- Validator `validate_dimension_weights`: fails iff `abs(total - 1.0) > 0.001`,
reporting the computed total.  `none` means the validator returned `self`. -/
def validate_dimension_weights (st : Settings) : Option VError :=
  if (1 : ℚ)/1000 < |weightsTotal st - 1| then
    some (VError.weightSumNotOne (weightsTotal st))
  else none

/-- Validator `validate_production_settings`: three sequential checks gated on
`APP_ENV == "production"`; each `raise` aborts, so at most one error is
produced. -/
def validate_production_settings (st : Settings) : Option VError :=
  if st.APP_ENV == ("production") then
    if st.DEBUG then some VError.debugTrueInProduction
    else if st.SECRET_KEY.secretValue.length < 32 then some VError.secretKeyTooShortInProduction
    else if !(secretBool st.OPENAI_API_KEY) && !(secretBool st.ANTHROPIC_API_KEY) then
      some VError.noLLMKeyInProduction
    else none
  else none

/-- Outcome of one load attempt: a fully validated object or the error
report.  There is no partially-valid state. -/
inductive LoadResult where
  | ok (st : Settings)
  | error (errors : List VError)
deriving DecidableEq

def LoadResult.isOk : LoadResult → Bool
  | .ok _ => true
  | .error _ => false

/-- Constructor call `Settings()` on a snapshot: collect all field-level errors; if any,
report them all; otherwise run the two after-validators in definition order,
a failure of either aborting with that single error. -/
def loadSettings (s : Snapshot) : LoadResult :=
  if fieldErrors s = [] then
    match validate_dimension_weights (coercedSettings s) with
    | some e => .error [e]
    | none =>
      match validate_production_settings (coercedSettings s) with
      | some e => .error [e]
      | none => .ok (coercedSettings s)
  else .error (fieldErrors s)

/-! ### Cached loader (`@lru_cache def get_settings_with_prod_validation`) and
the scenario loader.  `lru_cache` on a zero-argument function stores the first
successful result and returns it on every later call regardless of the
current snapshot; a raised `ValidationError` is not cached.  `cache_clear`
empties the cache. -/

def get_settings_with_prod_validation (cache : Option Settings) (s : Snapshot) :
    LoadResult × Option Settings :=
  match cache with
  | some st => (.ok st, some st)
  | none =>
    match loadSettings s with
    | .ok st => (.ok st, some st)
    | .error es => (.error es, none)

def cache_clear (_cache : Option Settings) : Option Settings :=
  none

/-- Helper of `load_scenario_settings`: fill in the eight `default_required_env_vars`
keys when the scenario does not set them. -/
def withRequiredDefaults (s : Snapshot) : Snapshot :=
  { s with
    SECRET_KEY := some (s.SECRET_KEY.getD ("default_secret_for_dev_env_testing_0123456789"))
    SNOWFLAKE_ACCOUNT := some (s.SNOWFLAKE_ACCOUNT.getD ("test_account"))
    SNOWFLAKE_USER := some (s.SNOWFLAKE_USER.getD ("test_user"))
    SNOWFLAKE_PASSWORD := some (s.SNOWFLAKE_PASSWORD.getD ("test_snowflake_password"))
    SNOWFLAKE_WAREHOUSE := some (s.SNOWFLAKE_WAREHOUSE.getD ("test_warehouse"))
    AWS_ACCESS_KEY_ID := some (s.AWS_ACCESS_KEY_ID.getD ("test_aws_key_id"))
    AWS_SECRET_ACCESS_KEY := some (s.AWS_SECRET_ACCESS_KEY.getD ("test_aws_secret_key"))
    S3_BUCKET := some (s.S3_BUCKET.getD ("test_s3_bucket")) }

/-- Loader `load_scenario_settings`: merge in the required defaults, clear the
cache, then call the cached loader. -/
def load_scenario_settings (cache : Option Settings) (overrides : Snapshot) :
    LoadResult × Option Settings :=
  get_settings_with_prod_validation (cache_clear cache) (withRequiredDefaults overrides)

/-! ### Concrete inputs used by the claim theorems -/

/-- Production snapshot violating all three production checks at once:
debug on, short secret key, both LLM keys unset. -/
def c1snap : Snapshot :=
  { APP_ENV := some ("production"), DEBUG := some ("true"), SECRET_KEY := some ("short") }

/-- Production snapshot where both the weight-sum invariant (sum 1.02) and
the production debug rule would fail. -/
def c2snap : Snapshot :=
  { APP_ENV := some ("production"), DEBUG := some ("true"),
    SECRET_KEY := some ("prod_secure_key_12345678901234567890123456789012"),
    OPENAI_API_KEY := some ("sk-xxxxxxxxxxxxxxxxxxxxxxxx"),
    W_DATA_INFRA := some ("0.20") }

/-- Development snapshot whose weights sum to 1.02. -/
def c3snap : Snapshot :=
  { W_DATA_INFRA := some ("0.20") }

/-- Snapshot with five independent fields out of range at once (scenario 2 of
the operational-validation cell). -/
def c5snap : Snapshot :=
  { RATE_LIMIT_PER_MINUTE := some ("1500"),
    DAILY_COST_BUDGET_USD := some ("-50.0"),
    COST_ALERT_THRESHOLD_PCT := some ("1.5"),
    HITL_SCORE_CHANGE_THRESHOLD := some ("2.0"),
    HITL_EBITDA_PROJECTION_THRESHOLD := some ("50.0") }

/-- Rate limit carried by a successful load, if any. -/
def loadedRate (s : Snapshot) : Option Int :=
  match loadSettings s with
  | .ok st => some st.RATE_LIMIT_PER_MINUTE
  | .error _ => none

/-- Rate limit carried by a load result, if it succeeded. -/
def resultRate : LoadResult → Option Int
  | .ok st => some st.RATE_LIMIT_PER_MINUTE
  | .error _ => none

/-- Secret-key raw value carried by a successful load, if any. -/
def loadedSecret (s : Snapshot) : Option String :=
  match loadSettings s with
  | .ok st => some st.SECRET_KEY.secretValue
  | .error _ => none

/-- Snapshot with a malformed OpenAI key. -/
def c7snap : Snapshot :=
  { OPENAI_API_KEY := some ("pk-xxx") }

/-- Second snapshot for the cache-staleness counterexample. -/
def c8snapB : Snapshot :=
  { RATE_LIMIT_PER_MINUTE := some ("100") }

/-- Production snapshot whose only LLM key is a present-but-empty
`ANTHROPIC_API_KEY`. -/
def c10snap : Snapshot :=
  { APP_ENV := some ("production"), DEBUG := some ("false"),
    SECRET_KEY := some ("this_is_a_very_long_and_secure_secret_key_0123456789"),
    ANTHROPIC_API_KEY := some ("") }

/-- Staging settings with debug on, a one-character secret key and no LLM
keys: everything the production validator would reject. -/
def c4st : Settings :=
  { coercedSettings emptySnapshot with
    APP_ENV := ("staging"), DEBUG := true, SECRET_KEY := ⟨("x")⟩ }

/-- Production settings whose only LLM key is a non-empty Anthropic key. -/
def c10st : Settings :=
  { coercedSettings emptySnapshot with
    APP_ENV := ("production"),
    SECRET_KEY := ⟨("prod_secure_key_12345678901234567890123456789012")⟩,
    ANTHROPIC_API_KEY := some ⟨("sk-ant-key")⟩ }

/-! ### Helper lemmas shared by the claim theorems -/

/-- The production validator can only produce its own three errors. -/
theorem validate_production_settings_shape (st : Settings) (e : VError)
    (h : validate_production_settings st = some e) :
    e = VError.debugTrueInProduction ∨ e = VError.secretKeyTooShortInProduction ∨
      e = VError.noLLMKeyInProduction := by
  unfold validate_production_settings at h
  split at h
  · split at h
    · simp_all
    · split at h
      · simp_all
      · split at h <;> simp_all
  · simp_all

/-- A non-empty field-error list is reported as-is. -/
theorem loadSettings_field_error (s : Snapshot) (h : fieldErrors s ≠ []) :
    loadSettings s = .error (fieldErrors s) := by
  unfold loadSettings
  rw [if_neg h]

/-! ### Claim theorems -/

/-- Claim C1 (code behaviour at the claimed input): on the snapshot with
`APP_ENV=production`, `DEBUG=true`, a 5-character `SECRET_KEY` and both LLM
keys unset - so all three production conditions are violated at once - the
load reports exactly one failure entry, the debug one, because
`validate_production_settings` raises at its first failing check.  The claimed
three-entry report does not occur. -/
theorem c1_production_report_has_single_entry :
    loadSettings c1snap = LoadResult.error [VError.debugTrueInProduction] ∧
    (coercedSettings c1snap).APP_ENV = ("production") ∧
    (coercedSettings c1snap).DEBUG = true ∧
    (coercedSettings c1snap).SECRET_KEY.secretValue.length < 32 ∧
    secretBool (coercedSettings c1snap).OPENAI_API_KEY = false ∧
    secretBool (coercedSettings c1snap).ANTHROPIC_API_KEY = false := by
  with_unfolding_all decide

/-- Claim C2 (code behaviour at the claimed input): on a production snapshot
whose weights sum to 1.02 and whose debug flag is on, both
`validate_dimension_weights` and `validate_production_settings` would fail,
but the load surfaces only the first model validator's error (the weight
sum); the production failure is not aggregated into the report. -/
theorem c2_cross_field_and_production_not_aggregated :
    loadSettings c2snap = LoadResult.error [VError.weightSumNotOne ((51 : ℚ)/50)] ∧
    validate_production_settings (coercedSettings c2snap) =
      some VError.debugTrueInProduction := by
  with_unfolding_all decide

/-- Claim C4: for settings whose environment is `development` or `staging`,
`validate_production_settings` never rejects, whatever the debug flag, the
secret-key length or the LLM-key fields hold. -/
theorem c4_production_validator_noop_outside_production :
    ∀ (st : Settings), st.APP_ENV = ("development") ∨ st.APP_ENV = ("staging") →
      validate_production_settings st = none := by
  intro st h
  unfold validate_production_settings
  rcases h with h | h <;> rw [h] <;> rfl

/-- Witness for C4 at concrete staging settings that violate all three
production conditions. -/
theorem c4_production_validator_noop_outside_production_witness :
    validate_production_settings c4st = none :=
  c4_production_validator_noop_outside_production c4st (Or.inr (by decide))

/-- Claim C5: one load attempt collects every field-level failure (no
fail-fast across sibling fields) - at the five-fields-out-of-range snapshot
the report names all five violations in one error list - and the loader is
all-or-nothing: a returned object is exactly the coerced snapshot and has
passed every field-level, cross-field and conditional check. -/
theorem c5_field_errors_aggregated_all_or_nothing :
    (∀ (s : Snapshot), fieldErrors s ≠ [] → loadSettings s = .error (fieldErrors s)) ∧
    (∀ (s : Snapshot) (st : Settings), loadSettings s = .ok st →
      fieldErrors s = [] ∧ st = coercedSettings s ∧
      validate_dimension_weights st = none ∧ validate_production_settings st = none) ∧
    loadSettings c5snap = LoadResult.error
      [VError.notLE ("RATE_LIMIT_PER_MINUTE") 1000,
       VError.notGE ("DAILY_COST_BUDGET_USD") 0,
       VError.notLE ("COST_ALERT_THRESHOLD_PCT") 1,
       VError.notGE ("HITL_SCORE_CHANGE_THRESHOLD") 5,
       VError.notLE ("HITL_EBITDA_PROJECTION_THRESHOLD") 25] := by
  refine ⟨loadSettings_field_error, ?_, by with_unfolding_all decide⟩
  intro s st h
  unfold loadSettings at h
  by_cases hf : fieldErrors s = []
  · rw [if_pos hf] at h
    cases hd : validate_dimension_weights (coercedSettings s) with
    | some e => rw [hd] at h; exact absurd h (by simp)
    | none =>
      rw [hd] at h
      cases hp : validate_production_settings (coercedSettings s) with
      | some e => rw [hp] at h; exact absurd h (by simp)
      | none =>
        rw [hp] at h
        have hst : st = coercedSettings s := by
          cases h
          rfl
        subst hst
        exact ⟨hf, rfl, hd, hp⟩
  · rw [if_neg hf] at h
    exact absurd h (by simp)

/-- Witness for C5 at the five-fields-out-of-range snapshot. -/
theorem c5_field_errors_aggregated_all_or_nothing_witness :
    loadSettings c5snap = LoadResult.error (fieldErrors c5snap) :=
  c5_field_errors_aggregated_all_or_nothing.1 c5snap (by with_unfolding_all decide)

/-- Claim C3: on a load where every field coerces successfully, the
weight-sum validation fails - and is the reported error, carrying the actual
computed sum - exactly when `abs(sum - 1.0) > 0.001`, and passes exactly when
the sum is within the tolerance. -/
theorem c3_dimension_weight_tolerance :
    ∀ (s : Snapshot), fieldErrors s = [] →
      ((loadSettings s =
          LoadResult.error [VError.weightSumNotOne (weightsTotal (coercedSettings s))]) ↔
        (1 : ℚ)/1000 < |weightsTotal (coercedSettings s) - 1|) ∧
      (validate_dimension_weights (coercedSettings s) = none ↔
        |weightsTotal (coercedSettings s) - 1| ≤ (1 : ℚ)/1000) := by
  intro s hf
  unfold loadSettings
  rw [if_pos hf]
  by_cases hw : (1 : ℚ)/1000 < |weightsTotal (coercedSettings s) - 1|
  · have hd : validate_dimension_weights (coercedSettings s) =
        some (VError.weightSumNotOne (weightsTotal (coercedSettings s))) := by
      unfold validate_dimension_weights
      rw [if_pos hw]
    rw [hd]
    exact ⟨⟨fun _ => hw, fun _ => rfl⟩,
      ⟨fun h => absurd h (by simp), fun hle => absurd hle (not_le.mpr hw)⟩⟩
  · have hd : validate_dimension_weights (coercedSettings s) = none := by
      unfold validate_dimension_weights
      rw [if_neg hw]
    rw [hd]
    refine ⟨⟨?_, fun hlt => absurd hlt hw⟩, ⟨fun _ => not_lt.mp hw, fun _ => rfl⟩⟩
    intro h
    cases hp : validate_production_settings (coercedSettings s) with
    | none =>
      rw [hp] at h
      exact absurd h (by simp)
    | some e =>
      rw [hp] at h
      rcases validate_production_settings_shape _ _ hp with he | he | he <;>
        subst he <;> simp at h

/-- Witness for C3: a snapshot whose fields all coerce and whose weights sum
to 1.02 is reported with exactly that sum. -/
theorem c3_dimension_weight_tolerance_witness :
    loadSettings c3snap =
      LoadResult.error [VError.weightSumNotOne (weightsTotal (coercedSettings c3snap))] :=
  ((c3_dimension_weight_tolerance c3snap (by with_unfolding_all decide)).1).mpr
    (by with_unfolding_all decide)

/-- Claim C6: numeric range checks are inclusive at both ends.  For
`RATE_LIMIT_PER_MINUTE` with range `[1,1000]`: 1 and 1000 load (with the
boundary value), while 0 and 1001 fail with an error naming the field and
the violated bound; analogously for `COST_ALERT_THRESHOLD_PCT` `[0,1]`,
`HITL_SCORE_CHANGE_THRESHOLD` `[5,30]`, `HITL_EBITDA_PROJECTION_THRESHOLD`
`[5,25]` and the weight fields `[0,1]` (the latter at field level, where the
cross-field sum rule does not interfere). -/
theorem c6_range_checks_inclusive_boundaries :
    loadedRate { RATE_LIMIT_PER_MINUTE := some ("1") } = some 1 ∧
    loadedRate { RATE_LIMIT_PER_MINUTE := some ("1000") } = some 1000 ∧
    loadSettings { RATE_LIMIT_PER_MINUTE := some ("0") } =
      LoadResult.error [VError.notGE ("RATE_LIMIT_PER_MINUTE") 1] ∧
    loadSettings { RATE_LIMIT_PER_MINUTE := some ("1001") } =
      LoadResult.error [VError.notLE ("RATE_LIMIT_PER_MINUTE") 1000] ∧
    (loadSettings { COST_ALERT_THRESHOLD_PCT := some ("0") }).isOk = true ∧
    (loadSettings { COST_ALERT_THRESHOLD_PCT := some ("1") }).isOk = true ∧
    loadSettings { COST_ALERT_THRESHOLD_PCT := some ("-0.5") } =
      LoadResult.error [VError.notGE ("COST_ALERT_THRESHOLD_PCT") 0] ∧
    loadSettings { COST_ALERT_THRESHOLD_PCT := some ("1.5") } =
      LoadResult.error [VError.notLE ("COST_ALERT_THRESHOLD_PCT") 1] ∧
    (loadSettings { HITL_SCORE_CHANGE_THRESHOLD := some ("5") }).isOk = true ∧
    (loadSettings { HITL_SCORE_CHANGE_THRESHOLD := some ("30") }).isOk = true ∧
    loadSettings { HITL_SCORE_CHANGE_THRESHOLD := some ("4") } =
      LoadResult.error [VError.notGE ("HITL_SCORE_CHANGE_THRESHOLD") 5] ∧
    loadSettings { HITL_SCORE_CHANGE_THRESHOLD := some ("31") } =
      LoadResult.error [VError.notLE ("HITL_SCORE_CHANGE_THRESHOLD") 30] ∧
    (loadSettings { HITL_EBITDA_PROJECTION_THRESHOLD := some ("5") }).isOk = true ∧
    (loadSettings { HITL_EBITDA_PROJECTION_THRESHOLD := some ("25") }).isOk = true ∧
    loadSettings { HITL_EBITDA_PROJECTION_THRESHOLD := some ("4") } =
      LoadResult.error [VError.notGE ("HITL_EBITDA_PROJECTION_THRESHOLD") 5] ∧
    loadSettings { HITL_EBITDA_PROJECTION_THRESHOLD := some ("26") } =
      LoadResult.error [VError.notLE ("HITL_EBITDA_PROJECTION_THRESHOLD") 25] ∧
    fieldErrors { W_DATA_INFRA := some ("0.0") } = [] ∧
    fieldErrors { W_DATA_INFRA := some ("1.0") } = [] ∧
    fieldErrors { W_DATA_INFRA := some ("-0.1") } = [VError.notGE ("W_DATA_INFRA") 0] ∧
    fieldErrors { W_DATA_INFRA := some ("1.1") } = [VError.notLE ("W_DATA_INFRA") 1] := by
  with_unfolding_all decide

/-! Helper facts for claim C7: no coercer other than the OpenAI one can emit
an `openaiKeyFormat` error. -/

theorem openaiFormat_notin_coerceLiteral (f : String) (a : List String) (d : String)
    (r : Option String) (g p : String) :
    VError.openaiKeyFormat g p ∉ (coerceLiteral f a d r).2 := by
  cases r with
  | none => simp [coerceLiteral]
  | some v =>
    simp only [coerceLiteral]
    split <;> simp

theorem openaiFormat_notin_coerceBool (f : String) (d : Bool)
    (r : Option String) (g p : String) :
    VError.openaiKeyFormat g p ∉ (coerceBool f d r).2 := by
  cases r with
  | none => simp [coerceBool]
  | some v =>
    simp only [coerceBool]
    cases parseBoolStr v <;> simp

theorem openaiFormat_notin_coerceInt (f : String) (d : Int)
    (r : Option String) (g p : String) :
    VError.openaiKeyFormat g p ∉ (coerceInt f d r).2 := by
  cases r with
  | none => simp [coerceInt]
  | some v =>
    simp only [coerceInt]
    cases parseIntStr v <;> simp

theorem openaiFormat_notin_coerceIntRange (f : String) (lo hi : Int) (d : Int)
    (r : Option String) (g p : String) :
    VError.openaiKeyFormat g p ∉ (coerceIntRange f lo hi d r).2 := by
  cases r with
  | none => simp [coerceIntRange]
  | some v =>
    simp only [coerceIntRange]
    cases parseIntStr v with
    | none => simp
    | some n =>
      simp only []
      split <;> [simp; split <;> simp]

theorem openaiFormat_notin_coerceRatGE (f : String) (lo d : ℚ)
    (r : Option String) (g p : String) :
    VError.openaiKeyFormat g p ∉ (coerceRatGE f lo d r).2 := by
  cases r with
  | none => simp [coerceRatGE]
  | some v =>
    simp only [coerceRatGE]
    cases parseRatStr v with
    | none => simp
    | some q =>
      simp only []
      split <;> simp

theorem openaiFormat_notin_coerceRatRange (f : String) (lo hi d : ℚ)
    (r : Option String) (g p : String) :
    VError.openaiKeyFormat g p ∉ (coerceRatRange f lo hi d r).2 := by
  cases r with
  | none => simp [coerceRatRange]
  | some v =>
    simp only [coerceRatRange]
    cases parseRatStr v with
    | none => simp
    | some q =>
      simp only []
      split <;> [simp; split <;> simp]

theorem openaiFormat_notin_coerceOptSecret (r : Option String) (g p : String) :
    VError.openaiKeyFormat g p ∉ (coerceOptSecret r).2 := by
  simp [coerceOptSecret]

/-- Claim C7: a present `OPENAI_API_KEY` that does not start with `"sk-"`
makes the load fail, whatever the environment, with a field-level error
naming `OPENAI_API_KEY` and the required prefix `"sk-"` inside the full error
report; when the key is absent, no such format error can appear at all. -/
theorem c7_openai_key_format :
    (∀ (s : Snapshot) (raw : String), s.OPENAI_API_KEY = some raw →
      strStartsWith raw ("sk-") = false →
        loadSettings s = LoadResult.error (fieldErrors s) ∧
        VError.openaiKeyFormat ("OPENAI_API_KEY") ("sk-") ∈ fieldErrors s) ∧
    (∀ (s : Snapshot), s.OPENAI_API_KEY = none →
      ∀ (g p : String), VError.openaiKeyFormat g p ∉ fieldErrors s) := by
  constructor
  · intro s raw hr hsk
    have hmem : VError.openaiKeyFormat ("OPENAI_API_KEY") ("sk-") ∈ fieldErrors s := by
      simp [fieldErrors, validate_openai_key, hr, hsk]
    have hne : fieldErrors s ≠ [] := by
      intro h0
      rw [h0] at hmem
      simp at hmem
    exact ⟨loadSettings_field_error s hne, hmem⟩
  · intro s h g p
    simp [fieldErrors, validate_openai_key, h,
      openaiFormat_notin_coerceLiteral, openaiFormat_notin_coerceBool,
      openaiFormat_notin_coerceInt, openaiFormat_notin_coerceIntRange,
      openaiFormat_notin_coerceRatGE, openaiFormat_notin_coerceRatRange,
      openaiFormat_notin_coerceOptSecret]

/-- Witness for C7 at `OPENAI_API_KEY="pk-xxx"`. -/
theorem c7_openai_key_format_witness :
    loadSettings c7snap = LoadResult.error (fieldErrors c7snap) ∧
    VError.openaiKeyFormat ("OPENAI_API_KEY") ("sk-") ∈ fieldErrors c7snap :=
  c7_openai_key_format.1 c7snap ("pk-xxx") rfl (by with_unfolding_all decide)

/-- Claim C8 counterexample: the cached zero-argument getter keyed on nothing
returns the instance built from a previous, different snapshot when the
snapshot changes without invalidation - the first call caches the
empty-snapshot object (rate limit 60), and the second call, under a snapshot
asking for rate limit 100, still returns the old object. -/
theorem c8_cached_loader_returns_stale_instance :
    resultRate
        ((get_settings_with_prod_validation
          ((get_settings_with_prod_validation none emptySnapshot).2) c8snapB).1) = some 60 ∧
    resultRate (loadSettings c8snapB) = some 100 := by
  with_unfolding_all decide

/-- Claim C8 as amended: after an explicit `cache_clear` the next load always
recomputes and re-validates from the current snapshot, whatever the previous
cache held, and the scenario loader - which clears the cache on every call -
always returns the result of a fresh load of its (defaults-filled) snapshot. -/
theorem c8_cache_clear_forces_rebuild :
    ∀ (cache : Option Settings) (s : Snapshot),
      (get_settings_with_prod_validation (cache_clear cache) s).1 = loadSettings s ∧
      ∀ (ov : Snapshot),
        (load_scenario_settings cache ov).1 = loadSettings (withRequiredDefaults ov) := by
  intro cache s
  constructor
  · cases h : loadSettings s <;>
      simp [get_settings_with_prod_validation, cache_clear, h]
  · intro ov
    cases h : loadSettings (withRequiredDefaults ov) <;>
      simp [load_scenario_settings, get_settings_with_prod_validation, cache_clear, h]

/-- Claim C9 counterexample: a snapshot that supplies no `SECRET_KEY` loads
successfully - the final `Settings` class gives the field a default - instead
of failing with a missing-required-field error. -/
theorem c9_missing_secret_key_loads_with_default :
    emptySnapshot.SECRET_KEY = none ∧
    (loadSettings emptySnapshot).isOk = true ∧
    loadedSecret emptySnapshot = some ("default_secret_for_dev_env_testing_0123456789") := by
  with_unfolding_all decide

/-- Claim C9 as amended: in the final `Settings` class `SECRET_KEY` is
optional with a default - a snapshot without it coerces to the default secret,
produces no error for the field, and loads exactly as if the default string
had been supplied. -/
theorem c9_secret_key_defaulted :
    ∀ (s : Snapshot), s.SECRET_KEY = none →
      (coercedSettings s).SECRET_KEY =
        ⟨("default_secret_for_dev_env_testing_0123456789")⟩ ∧
      fieldErrors s =
        fieldErrors { s with SECRET_KEY := some ("default_secret_for_dev_env_testing_0123456789") } ∧
      coercedSettings s =
        coercedSettings { s with SECRET_KEY := some ("default_secret_for_dev_env_testing_0123456789") } ∧
      loadSettings s =
        loadSettings { s with SECRET_KEY := some ("default_secret_for_dev_env_testing_0123456789") } := by
  intro s h
  have h2 : fieldErrors s =
      fieldErrors { s with SECRET_KEY := some ("default_secret_for_dev_env_testing_0123456789") } := rfl
  have h3 : coercedSettings s =
      coercedSettings { s with SECRET_KEY := some ("default_secret_for_dev_env_testing_0123456789") } := by
    unfold coercedSettings
    rw [h]
    rfl
  have h4 : loadSettings s =
      loadSettings { s with SECRET_KEY := some ("default_secret_for_dev_env_testing_0123456789") } := by
    unfold loadSettings
    rw [h2, h3]
  refine ⟨?_, h2, h3, h4⟩
  show (coerceSecret ("default_secret_for_dev_env_testing_0123456789") s.SECRET_KEY).1 = _
  rw [h]
  rfl

/-- Witness for the amended C9 at the empty snapshot. -/
theorem c9_secret_key_defaulted_witness :
    (coercedSettings emptySnapshot).SECRET_KEY =
      ⟨("default_secret_for_dev_env_testing_0123456789")⟩ ∧
    fieldErrors emptySnapshot =
      fieldErrors { emptySnapshot with SECRET_KEY := some ("default_secret_for_dev_env_testing_0123456789") } ∧
    coercedSettings emptySnapshot =
      coercedSettings { emptySnapshot with SECRET_KEY := some ("default_secret_for_dev_env_testing_0123456789") } ∧
    loadSettings emptySnapshot =
      loadSettings { emptySnapshot with SECRET_KEY := some ("default_secret_for_dev_env_testing_0123456789") } :=
  c9_secret_key_defaulted emptySnapshot rfl

/-- Claim C10 counterexample: `ANTHROPIC_API_KEY` present but empty does not
satisfy the production at-least-one-LLM-key rule (empty `SecretStr` is falsy),
so a present Anthropic key's value does affect validation: with the empty
string the load fails, with `"x"` it succeeds. -/
theorem c10_present_empty_anthropic_key_fails :
    c10snap.ANTHROPIC_API_KEY = some ("") ∧
    loadSettings c10snap = LoadResult.error [VError.noLLMKeyInProduction] ∧
    (loadSettings { c10snap with ANTHROPIC_API_KEY := some ("x") }).isOk = true := by
  with_unfolding_all decide

/-- Claim C10 as amended: `ANTHROPIC_API_KEY` undergoes no format validation
(its raw value never contributes a field-level error, `"sk-"` prefix or not),
and in production a present non-empty Anthropic key satisfies the
at-least-one-LLM-key rule - but a present empty string is treated as absent
by that rule. -/
theorem c10_anthropic_key_unvalidated :
    (∀ (s : Snapshot) (v : Option String),
      fieldErrors { s with ANTHROPIC_API_KEY := v } = fieldErrors s) ∧
    (∀ (st : Settings), st.APP_ENV = ("production") → st.DEBUG = false →
      32 ≤ st.SECRET_KEY.secretValue.length →
      secretBool st.ANTHROPIC_API_KEY = true →
      validate_production_settings st = none) ∧
    (∀ (st : Settings), st.APP_ENV = ("production") → st.DEBUG = false →
      32 ≤ st.SECRET_KEY.secretValue.length →
      secretBool st.OPENAI_API_KEY = false →
      st.ANTHROPIC_API_KEY = some ⟨("")⟩ →
      validate_production_settings st = some VError.noLLMKeyInProduction) := by
  refine ⟨fun s v => rfl, ?_, ?_⟩
  · intro st h1 h2 h3 h4
    simp [validate_production_settings, h1, h2, h4, Nat.not_lt.mpr h3]
  · intro st h1 h2 h3 h4 h5
    have ha : secretBool st.ANTHROPIC_API_KEY = false := by
      rw [h5]
      rfl
    simp [validate_production_settings, h1, h2, h4, ha, Nat.not_lt.mpr h3]

/-- Witness for the amended C10 at concrete production settings with a
non-empty, non-`sk-` Anthropic key, and with an empty one. -/
theorem c10_anthropic_key_unvalidated_witness :
    fieldErrors { emptySnapshot with ANTHROPIC_API_KEY := some ("x") } =
      fieldErrors emptySnapshot ∧
    validate_production_settings c10st = none ∧
    validate_production_settings { c10st with ANTHROPIC_API_KEY := some ⟨("")⟩ } =
      some VError.noLLMKeyInProduction :=
  ⟨c10_anthropic_key_unvalidated.1 emptySnapshot (some ("x")),
   c10_anthropic_key_unvalidated.2.1 c10st rfl rfl
     (by with_unfolding_all decide) (by with_unfolding_all decide),
   c10_anthropic_key_unvalidated.2.2 { c10st with ANTHROPIC_API_KEY := some ⟨("")⟩ }
     rfl rfl (by with_unfolding_all decide) (by with_unfolding_all decide) rfl⟩

end PEOrgair
